import Mathlib

/-!
Verification of the HealthGuard risk/alerting engine.

This file embeds the two leaf components of the repository's
risk/alerting subsystem:

* the threshold alert evaluator (`checkVitalsAndAlert` in
  `src/server/services/vitalSimulator.js` / alertEngine, and the legacy
  `checkVitals` in `src/server/services/alertChecker.js`), and
* the rule-based risk calculator (`calculateRiskScore` in
  `src/server/routes/vitals.js`),

and proves the specification's testable properties about them.
Numbers are modelled as rationals; JavaScript `Math.round` is the
half-up rounding `⌊q + 1/2⌋`.
-/

namespace HealthGuard

/-- JavaScript `Math.round`: round half toward positive infinity. -/
def jsRound (q : ℚ) : ℤ := ⌊q + 1 / 2⌋

/-- The six vital measurements both components evaluate. -/
inductive VitalKey where
  | heart_rate
  | blood_pressure_systolic
  | blood_pressure_diastolic
  | glucose
  | oxygen_saturation
  | temperature
deriving DecidableEq, Repr

/-- A vitals snapshot: every measurement is independently optional
(`null`/absent in the JavaScript source is `none`). -/
structure VitalReading where
  heart_rate : Option ℚ
  blood_pressure_systolic : Option ℚ
  blood_pressure_diastolic : Option ℚ
  glucose : Option ℚ
  oxygen_saturation : Option ℚ
  temperature : Option ℚ
deriving DecidableEq, Repr

/-- Field access `reading[vitalKey]` from the source. -/
def VitalReading.get (r : VitalReading) : VitalKey → Option ℚ
  | .heart_rate => r.heart_rate
  | .blood_pressure_systolic => r.blood_pressure_systolic
  | .blood_pressure_diastolic => r.blood_pressure_diastolic
  | .glucose => r.glucose
  | .oxygen_saturation => r.oxygen_saturation
  | .temperature => r.temperature

/-- Replace one field of a reading, leaving the others unchanged. -/
def VitalReading.set (r : VitalReading) (k : VitalKey) (v : Option ℚ) : VitalReading :=
  match k with
  | .heart_rate => ⟨v, r.blood_pressure_systolic, r.blood_pressure_diastolic,
      r.glucose, r.oxygen_saturation, r.temperature⟩
  | .blood_pressure_systolic => ⟨r.heart_rate, v, r.blood_pressure_diastolic,
      r.glucose, r.oxygen_saturation, r.temperature⟩
  | .blood_pressure_diastolic => ⟨r.heart_rate, r.blood_pressure_systolic, v,
      r.glucose, r.oxygen_saturation, r.temperature⟩
  | .glucose => ⟨r.heart_rate, r.blood_pressure_systolic, r.blood_pressure_diastolic,
      v, r.oxygen_saturation, r.temperature⟩
  | .oxygen_saturation => ⟨r.heart_rate, r.blood_pressure_systolic, r.blood_pressure_diastolic,
      r.glucose, v, r.temperature⟩
  | .temperature => ⟨r.heart_rate, r.blood_pressure_systolic, r.blood_pressure_diastolic,
      r.glucose, r.oxygen_saturation, v⟩

/-- The all-absent reading. -/
def emptyReading : VitalReading := ⟨none, none, none, none, none, none⟩

/-- Left-pad a digit string with zeros to length `k`. -/
def padZeros (s : String) (k : ℕ) : String :=
  String.mk (List.replicate (k - s.length) '0') ++ s

/-- Rendering of a numeric value inside a template string, modelling the
JavaScript string interpolation of a number: integers print without a
decimal point, short decimals print with their fractional digits. -/
def numStr (q : ℚ) : String :=
  if q.den = 1 then toString q.num
  else
    match (List.range 20).find? (fun i => (q * (10 : ℚ) ^ (i + 1)).den = 1) with
    | some i =>
      let scaled := (q * (10 : ℚ) ^ (i + 1)).num.natAbs
      let base := (10 : ℕ) ^ (i + 1)
      (if q < 0 then "-" else "") ++ toString (scaled / base) ++ "." ++
        padZeros (toString (scaled % base)) (i + 1)
    | none => toString q.num ++ "/" ++ toString q.den

/-! ## Threshold alert evaluator -/

/-- Comparison direction of a threshold rule. -/
inductive Direction where
  | above
  | below
deriving DecidableEq, Repr

/-- One entry of the `THRESHOLDS` rule tables: a direction, a boundary
value, a severity tier and a human title. -/
structure AlertRule where
  direction : Direction
  value : ℚ
  type : String
  title : String
deriving DecidableEq, Repr

/-- The `THRESHOLDS` table, ordered most-severe-first per vital.  The
identical table appears in both `alertChecker.js` and the alert engine
in `vitalSimulator.js`. -/
def THRESHOLDS : VitalKey → List AlertRule
  | .heart_rate =>
    [⟨.above, 150, "critical", "Critically High Heart Rate"⟩,
     ⟨.above, 120, "warning", "Elevated Heart Rate"⟩,
     ⟨.below, 40, "critical", "Critically Low Heart Rate"⟩,
     ⟨.below, 50, "warning", "Low Heart Rate"⟩]
  | .blood_pressure_systolic =>
    [⟨.above, 160, "critical", "Critically High Systolic Blood Pressure"⟩,
     ⟨.above, 140, "warning", "Elevated Systolic Blood Pressure"⟩]
  | .blood_pressure_diastolic =>
    [⟨.above, 100, "critical", "Critically High Diastolic Blood Pressure"⟩,
     ⟨.above, 90, "warning", "Elevated Diastolic Blood Pressure"⟩]
  | .glucose =>
    [⟨.above, 250, "critical", "Critically High Blood Glucose"⟩,
     ⟨.above, 200, "warning", "Elevated Blood Glucose"⟩]
  | .oxygen_saturation =>
    [⟨.below, 92, "critical", "Critically Low Oxygen Saturation"⟩,
     ⟨.below, 95, "warning", "Low Oxygen Saturation"⟩]
  | .temperature =>
    [⟨.above, 103, "critical", "Critically High Temperature"⟩,
     ⟨.above, 100.4, "warning", "Elevated Temperature"⟩]

/-- Iteration order of `Object.entries(THRESHOLDS)` (object insertion
order in the source). -/
def ALERT_VITALS : List VitalKey :=
  [.heart_rate, .blood_pressure_systolic, .blood_pressure_diastolic,
   .glucose, .oxygen_saturation, .temperature]

/-- The `UNIT_MAP` of the alert engine in `vitalSimulator.js`. -/
def UNIT_MAP : VitalKey → String
  | .heart_rate => "BPM"
  | .blood_pressure_systolic => "mmHg"
  | .blood_pressure_diastolic => "mmHg"
  | .glucose => "mg/dL"
  | .oxygen_saturation => "%"
  | .temperature => "°F"

/-- The `UNIT_MAP` of `alertChecker.js`; it spells the heart-rate unit
in lowercase. -/
def alertCheckerUnitMap : VitalKey → String
  | .heart_rate => "bpm"
  | .blood_pressure_systolic => "mmHg"
  | .blood_pressure_diastolic => "mmHg"
  | .glucose => "mg/dL"
  | .oxygen_saturation => "%"
  | .temperature => "°F"

/-- `generateBasicMessage` from the alert engine in `vitalSimulator.js`. -/
def generateBasicMessage (vitalType : VitalKey) (actualValue : ℚ) (rule : AlertRule) : String :=
  let unit := UNIT_MAP vitalType
  let verb := if rule.direction = .above then "exceeds" else "is below"
  rule.title ++ ": " ++ numStr actualValue ++ unit ++ " " ++ verb ++
    " the threshold of " ++ numStr rule.value ++ unit ++ "."

/-- `generateMessage` from `alertChecker.js` (same template, its own
unit map). -/
def generateMessage (vitalType : VitalKey) (actualValue : ℚ) (rule : AlertRule) : String :=
  let unit := alertCheckerUnitMap vitalType
  let verb := if rule.direction = .above then "exceeds" else "is below"
  rule.title ++ ": " ++ numStr actualValue ++ unit ++ " " ++ verb ++
    " the threshold of " ++ numStr rule.value ++ unit ++ "."

/-- The breach test of the rule loop:
`(rule.direction === 'above' && value > rule.value) || (rule.direction === 'below' && value < rule.value)`. -/
def ruleBreached (value : ℚ) (rule : AlertRule) : Prop :=
  (rule.direction = Direction.above ∧ value > rule.value) ∨
  (rule.direction = Direction.below ∧ value < rule.value)

instance (value : ℚ) (rule : AlertRule) : Decidable (ruleBreached value rule) := by
  unfold ruleBreached
  infer_instance

/-- The inner `for … break` over a vital's rule list: the first rule the
value breaches, if any. -/
def firstMatch (value : ℚ) : List AlertRule → Option AlertRule
  | [] => none
  | rule :: rules => if ruleBreached value rule then some rule else firstMatch value rules

/-- One alert record as pushed onto `breached` by `checkVitalsAndAlert`
(persistence fields such as ids and timestamps are the caller's and are
omitted). -/
structure AlertRecord where
  vital_type : VitalKey
  vital_value : ℚ
  threshold_value : ℚ
  type : String
  title : String
  message : String
deriving DecidableEq, Repr

/-- The per-vital body of the threshold loop in `checkVitalsAndAlert`:
skip an absent value, otherwise report the first breached rule. -/
def checkVital (reading : VitalReading) (vitalType : VitalKey) : Option AlertRecord :=
  match reading.get vitalType with
  | none => none
  | some value =>
    (firstMatch value (THRESHOLDS vitalType)).map fun rule =>
      ⟨vitalType, value, rule.value, rule.type, rule.title,
        generateBasicMessage vitalType value rule⟩

/-- The pure core of `checkVitalsAndAlert` in the alert engine: the list
of breached-vital alert records, in table order. -/
def evaluateAlerts (reading : VitalReading) : List AlertRecord :=
  ALERT_VITALS.filterMap (checkVital reading)

/-- The per-vital body of the loop in `checkVitals` (`alertChecker.js`);
identical logic, but messages use `alertChecker.js`'s unit map. -/
def checkVitalChecker (reading : VitalReading) (vitalType : VitalKey) : Option AlertRecord :=
  match reading.get vitalType with
  | none => none
  | some value =>
    (firstMatch value (THRESHOLDS vitalType)).map fun rule =>
      ⟨vitalType, value, rule.value, rule.type, rule.title,
        generateMessage vitalType value rule⟩

/-- The pure core of `checkVitals` from `alertChecker.js`. -/
def checkVitalsAlerts (reading : VitalReading) : List AlertRecord :=
  ALERT_VITALS.filterMap (checkVitalChecker reading)

/-! ## Risk scoring engine (`calculateRiskScore` in `src/server/routes/vitals.js`) -/

/-- Result of a per-vital zone scorer: raw points and a zone label. -/
structure ZoneScore where
  points : ℕ
  zone : String
deriving DecidableEq, Repr

/-- The `RISK_SCORING.heart_rate.score` piecewise function. -/
def heartRateScore (v : ℚ) : ZoneScore :=
  if 60 ≤ v ∧ v ≤ 100 then ⟨0, "normal"⟩
  else if (50 ≤ v ∧ v < 60) ∨ (100 < v ∧ v ≤ 120) then ⟨10, "warning"⟩
  else ⟨22, "critical"⟩

/-- The `RISK_SCORING.heart_rate.explain` string. -/
def heartRateExplain (v : ℚ) : String :=
  if v < 50 then "Heart rate " ++ numStr v ++ " BPM is critically low (< 50)"
  else if v > 120 then "Heart rate " ++ numStr v ++ " BPM is critically high (> 120)"
  else if v < 60 then "Heart rate " ++ numStr v ++ " BPM is below normal (< 60)"
  else if v > 100 then "Heart rate " ++ numStr v ++ " BPM is above normal (> 100)"
  else "Heart rate " ++ numStr v ++ " BPM is within normal range"

/-- The `RISK_SCORING.blood_pressure_systolic.score` piecewise function. -/
def systolicScore (v : ℚ) : ZoneScore :=
  if v < 120 then ⟨0, "normal"⟩
  else if v ≤ 129 then ⟨8, "elevated"⟩
  else if v ≤ 139 then ⟨14, "high"⟩
  else if v ≤ 179 then ⟨18, "high"⟩
  else ⟨25, "crisis"⟩

/-- The `RISK_SCORING.blood_pressure_systolic.explain` string. -/
def systolicExplain (v : ℚ) : String :=
  if v ≥ 180 then "Systolic BP " ++ numStr v ++ " mmHg is in hypertensive crisis (>= 180)"
  else if v ≥ 130 then "Systolic BP " ++ numStr v ++ " mmHg is high (130-179)"
  else if v ≥ 120 then "Systolic BP " ++ numStr v ++ " mmHg is elevated (120-129)"
  else "Systolic BP " ++ numStr v ++ " mmHg is normal"

/-- The `RISK_SCORING.blood_pressure_diastolic.score` piecewise function. -/
def diastolicScore (v : ℚ) : ZoneScore :=
  if v < 80 then ⟨0, "normal"⟩
  else if v ≤ 89 then ⟨10, "high"⟩
  else if v < 120 then ⟨16, "high"⟩
  else ⟨25, "crisis"⟩

/-- The `RISK_SCORING.blood_pressure_diastolic.explain` string. -/
def diastolicExplain (v : ℚ) : String :=
  if v ≥ 120 then "Diastolic BP " ++ numStr v ++ " mmHg is in hypertensive crisis (>= 120)"
  else if v ≥ 80 then "Diastolic BP " ++ numStr v ++ " mmHg is high (>= 80)"
  else "Diastolic BP " ++ numStr v ++ " mmHg is normal"

/-- The `RISK_SCORING.glucose.score` piecewise function. -/
def glucoseScore (v : ℚ) : ZoneScore :=
  if 70 ≤ v ∧ v ≤ 140 then ⟨0, "normal"⟩
  else if 140 < v ∧ v ≤ 200 then ⟨10, "high"⟩
  else if 200 < v then ⟨22, "critical"⟩
  else if v < 70 ∧ 55 ≤ v then ⟨12, "warning"⟩
  else ⟨25, "critical"⟩

/-- The `RISK_SCORING.glucose.explain` string. -/
def glucoseExplain (v : ℚ) : String :=
  if v < 55 then "Blood glucose " ++ numStr v ++ " mg/dL is critically low (< 55)"
  else if v > 200 then "Blood glucose " ++ numStr v ++ " mg/dL is critically high (> 200)"
  else if v > 140 then "Blood glucose " ++ numStr v ++ " mg/dL is high (141-200)"
  else if v < 70 then "Blood glucose " ++ numStr v ++ " mg/dL is low (55-69)"
  else "Blood glucose " ++ numStr v ++ " mg/dL is within normal range"

/-- The `RISK_SCORING.oxygen_saturation.score` piecewise function. -/
def oxygenScore (v : ℚ) : ZoneScore :=
  if 95 ≤ v then ⟨0, "normal"⟩
  else if 90 ≤ v then ⟨12, "low"⟩
  else ⟨25, "critical"⟩

/-- The `RISK_SCORING.oxygen_saturation.explain` string. -/
def oxygenExplain (v : ℚ) : String :=
  if v < 90 then "SpO2 " ++ numStr v ++ "% is critically low (< 90)"
  else if v < 95 then "SpO2 " ++ numStr v ++ "% is low (90-94)"
  else "SpO2 " ++ numStr v ++ "% is within normal range"

/-- The `RISK_SCORING.temperature.score` piecewise function. -/
def temperatureScore (v : ℚ) : ZoneScore :=
  if 97 ≤ v ∧ v ≤ 99.5 then ⟨0, "normal"⟩
  else if 99.5 < v ∧ v ≤ 103 then ⟨10, "fever"⟩
  else if 103 < v then ⟨22, "critical"⟩
  else if v < 97 then ⟨6, "warning"⟩
  else ⟨0, "normal"⟩

/-- The `RISK_SCORING.temperature.explain` string. -/
def temperatureExplain (v : ℚ) : String :=
  if v > 103 then "Temperature " ++ numStr v ++ "°F is critically high (> 103)"
  else if v > 99.5 then "Temperature " ++ numStr v ++ "°F indicates fever (99.5-103)"
  else if v < 97 then "Temperature " ++ numStr v ++ "°F is below normal (< 97)"
  else "Temperature " ++ numStr v ++ "°F is within normal range"

/-- One entry of `RISK_SCORING`: a zone scorer and an explanation
generator. -/
structure VitalScorer where
  score : ℚ → ZoneScore
  explain : ℚ → String

/-- The `RISK_SCORING` table. -/
def RISK_SCORING : VitalKey → VitalScorer
  | .heart_rate => ⟨heartRateScore, heartRateExplain⟩
  | .blood_pressure_systolic => ⟨systolicScore, systolicExplain⟩
  | .blood_pressure_diastolic => ⟨diastolicScore, diastolicExplain⟩
  | .glucose => ⟨glucoseScore, glucoseExplain⟩
  | .oxygen_saturation => ⟨oxygenScore, oxygenExplain⟩
  | .temperature => ⟨temperatureScore, temperatureExplain⟩

/-- `SCORED_VITALS = Object.keys(RISK_SCORING)` in insertion order. -/
def SCORED_VITALS : List VitalKey :=
  [.heart_rate, .blood_pressure_systolic, .blood_pressure_diastolic,
   .glucose, .oxygen_saturation, .temperature]

/-- The `CONDITION_WEIGHTS` lookup table: per-condition, per-vital
multipliers. -/
def CONDITION_WEIGHTS : String → VitalKey → Option ℚ
  | "Type 2 Diabetes", .glucose => some 1.5
  | "Hypertension", .blood_pressure_systolic => some 1.5
  | "Hypertension", .blood_pressure_diastolic => some 1.5
  | "Heart Disease", .heart_rate => some 1.5
  | "Heart Disease", .oxygen_saturation => some 1.2
  | "COPD", .oxygen_saturation => some 1.5
  | "COPD", .temperature => some 1.2
  | _, _ => none

/-- `getConditionWeight`: fold `Math.max` of the matching multipliers
over the condition list, starting from `1.0`. -/
def getConditionWeight (conditions : List String) (vitalKey : VitalKey) : ℚ :=
  conditions.foldl
    (fun weight condition =>
      match CONDITION_WEIGHTS condition vitalKey with
      | some m => max weight m
      | none => weight)
    1

/-- The `HIGHER_IS_WORSE` set: vitals where a positive slope indicates
worsening. -/
def HIGHER_IS_WORSE : List VitalKey :=
  [.heart_rate, .blood_pressure_systolic, .blood_pressure_diastolic,
   .glucose, .temperature]

/-- `classifyTrend` with its dead-zone threshold of `0.5`. -/
def classifyTrend (slope : ℚ) (vitalKey : VitalKey) : String :=
  if |slope| < 0.5 then "stable"
  else if vitalKey ∈ HIGHER_IS_WORSE then
    (if slope > 0 then "worsening" else "improving")
  else
    (if slope > 0 then "improving" else "worsening")

/-- `linearRegressionSlope`: slope of value versus x over the data
points, via the closed-form sums of the source. -/
def linearRegressionSlope (points : List (ℚ × ℚ)) : ℚ :=
  if points.length < 2 then 0
  else
    let n : ℚ := points.length
    let sumX := (points.map Prod.fst).sum
    let sumY := (points.map Prod.snd).sum
    let sumXY := (points.map fun p => p.1 * p.2).sum
    let sumX2 := (points.map fun p => p.1 * p.1).sum
    let denom := n * sumX2 - sumX * sumX
    if denom = 0 then 0 else (n * sumXY - sumX * sumY) / denom

/-- The per-vital history extraction
`vitalsHistory.map((row, i) => row[k] != null ? {x: i, y: row[k]} : null).filter(Boolean)`:
x is the row's index in the full history window. -/
def dataPoints (vitalsHistory : List VitalReading) (vitalKey : VitalKey) : List (ℚ × ℚ) :=
  vitalsHistory.enum.filterMap fun p => (p.2.get vitalKey).map fun y => ((p.1 : ℚ), y)

/-- One entry of the `factors` output list. -/
structure Factor where
  vital : VitalKey
  score : ℤ
  trend : String
  zone : String
  explanation : String
deriving DecidableEq, Repr

/-- The `RiskScoreResult` value object. -/
structure RiskResult where
  overallScore : ℤ
  category : String
  factors : List Factor
deriving DecidableEq, Repr

/-- The `conditions` argument as passed by a JavaScript caller: either
an array of condition names or any non-array value (null, undefined, a
string, an object …). -/
inductive ConditionsArg where
  | array (conditions : List String)
  | nonArray (value : String)
deriving DecidableEq, Repr

/-- The defensive first line of `calculateRiskScore`:
`Array.isArray(patientConditions) ? patientConditions : []`. -/
def coerceConditions : ConditionsArg → List String
  | .array conditions => conditions
  | .nonArray _ => []

/-- The body of the per-vital loop in `calculateRiskScore`: `none` when
the vital is absent from `latestVitals`, otherwise the factor record
pushed for it (weighted zone points capped at 25, plus the trend
penalty). -/
def vitalFactor (latestVitals : VitalReading) (vitalsHistory : List VitalReading)
    (conditions : List String) (vitalKey : VitalKey) : Option Factor :=
  match latestVitals.get vitalKey with
  | none => none
  | some value =>
    let scorer := RISK_SCORING vitalKey
    let zs := scorer.score value
    let explanation := scorer.explain value
    let weight := getConditionWeight conditions vitalKey
    let weightedPoints : ℤ := min 25 (jsRound ((zs.points : ℚ) * weight))
    let pts := dataPoints vitalsHistory vitalKey
    let slope := linearRegressionSlope pts
    let trend := classifyTrend slope vitalKey
    let trendPenalty : ℤ :=
      if trend = "worsening" ∧ 3 ≤ pts.length then jsRound (min (|slope| / 2) 1 * 5) else 0
    some ⟨vitalKey, weightedPoints + trendPenalty, trend, zs.zone, explanation⟩

/-- The compound risk penalty applied after the loop: `+10` when 3 or
more vitals are out of their normal zone, `+5` when exactly 2. -/
def compoundPenalty (outOfRangeCount : ℕ) : ℤ :=
  if 3 ≤ outOfRangeCount then 10 else if 2 ≤ outOfRangeCount then 5 else 0

/-- Stable insertion of a factor into a score-descending list, modelling
JavaScript's stable `factors.sort((a, b) => b.score - a.score)`. -/
def insertFactor (f : Factor) : List Factor → List Factor
  | [] => [f]
  | g :: gs => if g.score ≤ f.score then f :: g :: gs else g :: insertFactor f gs

/-- Stable sort of the factors by score descending. -/
def sortFactors : List Factor → List Factor
  | [] => []
  | f :: fs => insertFactor f (sortFactors fs)

/-- One iteration of the `calculateRiskScore` loop: accumulate the
factor list, the running `totalScore` and the `outOfRangeCount`. -/
def riskStep (latestVitals : VitalReading) (vitalsHistory : List VitalReading)
    (conditions : List String) (acc : List Factor × ℤ × ℕ) (vitalKey : VitalKey) :
    List Factor × ℤ × ℕ :=
  match vitalFactor latestVitals vitalsHistory conditions vitalKey with
  | none => acc
  | some f => (acc.1 ++ [f], acc.2.1 + f.score,
      acc.2.2 + (if f.zone ≠ "normal" then 1 else 0))

/-- `calculateRiskScore`: the rule-based risk calculator of
`src/server/routes/vitals.js`. -/
def calculateRiskScore (latestVitals : VitalReading) (vitalsHistory : List VitalReading)
    (patientConditions : ConditionsArg) : RiskResult :=
  let conditions := coerceConditions patientConditions
  let acc := SCORED_VITALS.foldl (riskStep latestVitals vitalsHistory conditions)
    (([] : List Factor), (0 : ℤ), (0 : ℕ))
  let totalScore : ℤ := acc.2.1 + compoundPenalty acc.2.2
  let overallScore := max 0 (min 100 totalScore)
  let category :=
    if 80 ≤ overallScore then "critical"
    else if 55 ≤ overallScore then "high"
    else if 30 ≤ overallScore then "moderate"
    else "low"
  ⟨overallScore, category, sortFactors acc.1⟩

/-! ## Specification-side comparison definitions -/

/-- Specification-side definition of the ordinary least-squares slope
of y versus x (covariance about the means over variance of x), for
comparison with the source's closed-form `linearRegressionSlope`. -/
def specOlsSlope (points : List (ℚ × ℚ)) : ℚ :=
  let n : ℚ := points.length
  let xbar := (points.map Prod.fst).sum / n
  let ybar := (points.map Prod.snd).sum / n
  (points.map fun p => (p.1 - xbar) * (p.2 - ybar)).sum /
    (points.map fun p => (p.1 - xbar) ^ 2).sum

/-- Specification-side definition of the condition weight: the maximum
multiplier across all of the patient's matching conditions, defaulting
to 1, for comparison with the source's `getConditionWeight` fold. -/
def specMaxMultiplier (conditions : List String) (vitalKey : VitalKey) : ℚ :=
  (conditions.filterMap fun c => CONDITION_WEIGHTS c vitalKey).foldr max 1

/-! ## Concrete inputs used by the scenario theorems -/

/-- A reading with heart rate 155 and every other vital absent. -/
def reading155 : VitalReading := ⟨some 155, none, none, none, none, none⟩

/-- A reading with heart rate 70 and every other vital absent. -/
def reading70 : VitalReading := ⟨some 70, none, none, none, none, none⟩

/-- Scenario C: systolic 185 and diastolic 120, all else absent. -/
def readingC3 : VitalReading := ⟨none, some 185, some 120, none, none, none⟩

/-- Scenario C with a third abnormal vital (glucose 250) added. -/
def readingC3plus : VitalReading := ⟨none, some 185, some 120, some 250, none, none⟩

/-- A reading carrying only a glucose value. -/
def glucoseReading (v : ℚ) : VitalReading := ⟨none, none, none, some v, none, none⟩

/-- Scenario D history: a 3-point ascending glucose history
110 → 160 → 210. -/
def glucoseHistory : List VitalReading :=
  [glucoseReading 110, glucoseReading 160, glucoseReading 210]

/-- The alert produced by the alert engine for a heart rate of 155. -/
def alert155 : AlertRecord :=
  ⟨.heart_rate, 155, 150, "critical", "Critically High Heart Rate",
   "Critically High Heart Rate: 155BPM exceeds the threshold of 150BPM."⟩

/-! ## Shared helper definitions and lemmas -/

/-- Score contribution of an optional factor (0 when the vital was
skipped). -/
def contribOf : Option Factor → ℤ
  | some f => f.score
  | none => 0

/-- Out-of-range indicator of an optional factor. -/
def abnOf : Option Factor → ℕ
  | some f => if f.zone ≠ "normal" then 1 else 0
  | none => 0

/-- Sum of the per-vital score contributions over the scored vitals. -/
def totalContribution (latestVitals : VitalReading) (vitalsHistory : List VitalReading)
    (conditions : List String) : ℤ :=
  (SCORED_VITALS.map fun k => contribOf (vitalFactor latestVitals vitalsHistory conditions k)).sum

/-- Number of scored vitals outside their normal zone. -/
def outOfRange (latestVitals : VitalReading) (vitalsHistory : List VitalReading)
    (conditions : List String) : ℕ :=
  (SCORED_VITALS.map fun k => abnOf (vitalFactor latestVitals vitalsHistory conditions k)).sum

lemma vitalFactor_eq_none (latestVitals : VitalReading) (vitalsHistory : List VitalReading)
    (conditions : List String) (vitalKey : VitalKey)
    (h : latestVitals.get vitalKey = none) :
    vitalFactor latestVitals vitalsHistory conditions vitalKey = none := by
  simp [vitalFactor, h]

lemma riskFold_go (latestVitals : VitalReading) (vitalsHistory : List VitalReading)
    (conditions : List String) :
    ∀ (l : List VitalKey) (fs : List Factor) (t : ℤ) (c : ℕ),
      l.foldl (riskStep latestVitals vitalsHistory conditions) (fs, t, c) =
        (fs ++ l.filterMap (vitalFactor latestVitals vitalsHistory conditions),
         t + (l.map fun k => contribOf (vitalFactor latestVitals vitalsHistory conditions k)).sum,
         c + (l.map fun k => abnOf (vitalFactor latestVitals vitalsHistory conditions k)).sum) := by
  intro l
  induction l with
  | nil => intro fs t c; simp
  | cons x xs ih =>
    intro fs t c
    rcases h : vitalFactor latestVitals vitalsHistory conditions x with _ | f
    · simp [List.foldl_cons, riskStep, h, ih, contribOf, abnOf]
    · simp [List.foldl_cons, riskStep, h, ih, contribOf, abnOf, add_assoc]

/-- `calculateRiskScore` in terms of the per-vital decomposition. -/
lemma calculateRiskScore_eq (latestVitals : VitalReading) (vitalsHistory : List VitalReading)
    (pc : ConditionsArg) :
    calculateRiskScore latestVitals vitalsHistory pc =
      ⟨max 0 (min 100 (totalContribution latestVitals vitalsHistory (coerceConditions pc) +
          compoundPenalty (outOfRange latestVitals vitalsHistory (coerceConditions pc)))),
       (if 80 ≤ max 0 (min 100 (totalContribution latestVitals vitalsHistory (coerceConditions pc) +
            compoundPenalty (outOfRange latestVitals vitalsHistory (coerceConditions pc)))) then "critical"
        else if 55 ≤ max 0 (min 100 (totalContribution latestVitals vitalsHistory (coerceConditions pc) +
            compoundPenalty (outOfRange latestVitals vitalsHistory (coerceConditions pc)))) then "high"
        else if 30 ≤ max 0 (min 100 (totalContribution latestVitals vitalsHistory (coerceConditions pc) +
            compoundPenalty (outOfRange latestVitals vitalsHistory (coerceConditions pc)))) then "moderate"
        else "low"),
       sortFactors (SCORED_VITALS.filterMap
         (vitalFactor latestVitals vitalsHistory (coerceConditions pc)))⟩ := by
  simp only [calculateRiskScore]
  rw [riskFold_go]
  simp [totalContribution, outOfRange]

lemma checkVital_spec (reading : VitalReading) (k : VitalKey) (a : AlertRecord)
    (h : checkVital reading k = some a) :
    a.vital_type = k ∧ ∃ v rule, reading.get k = some v ∧
      firstMatch v (THRESHOLDS k) = some rule ∧
      a = ⟨k, v, rule.value, rule.type, rule.title, generateBasicMessage k v rule⟩ := by
  rcases hg : reading.get k with _ | v
  · simp [checkVital, hg] at h
  · rcases hf : firstMatch v (THRESHOLDS k) with _ | rule
    · simp [checkVital, hg, hf] at h
    · simp only [checkVital, hg, hf, Option.map_some, Option.map_some', Option.some.injEq] at h
      subst h
      exact ⟨rfl, v, rule, rfl, hf, rfl⟩

lemma filter_filterMap_checkVital_len (reading : VitalReading) (k : VitalKey) :
    ∀ l : List VitalKey, l.Nodup →
      ((l.filterMap (checkVital reading)).filter (fun a => decide (a.vital_type = k))).length ≤ 1 := by
  intro l
  induction l with
  | nil => simp
  | cons x xs ih =>
    intro hnd
    rcases List.nodup_cons.mp hnd with ⟨hx, hxs⟩
    rcases h : checkVital reading x with _ | a
    · simpa [List.filterMap_cons, h] using ih hxs
    · have hvt : a.vital_type = x := (checkVital_spec reading x a h).1
      by_cases hk : x = k
      · subst hk
        have hrest : (xs.filterMap (checkVital reading)).filter
            (fun b => decide (b.vital_type = x)) = [] := by
          rw [List.filter_eq_nil_iff]
          intro b hb
          rcases List.mem_filterMap.mp hb with ⟨y, hy, hcy⟩
          have hby : b.vital_type = y := (checkVital_spec reading y b hcy).1
          simp only [hby, decide_eq_true_eq]
          intro hyx
          exact hx (hyx ▸ hy)
        simp [List.filterMap_cons, h, List.filter_cons, hvt, hrest]
      · have hne : a.vital_type ≠ k := by rw [hvt]; exact hk
        simpa [List.filterMap_cons, h, List.filter_cons, hne] using ih hxs

lemma one_le_foldr_max : ∀ l : List ℚ, 1 ≤ l.foldr max 1 := by
  intro l
  induction l with
  | nil => exact le_refl 1
  | cons m ms ih => exact le_trans ih (le_max_right m _)

lemma getConditionWeight_go (vitalKey : VitalKey) :
    ∀ (cs : List String) (w : ℚ), 1 ≤ w →
      cs.foldl
        (fun weight condition =>
          match CONDITION_WEIGHTS condition vitalKey with
          | some m => max weight m
          | none => weight) w
      = max w ((cs.filterMap fun c => CONDITION_WEIGHTS c vitalKey).foldr max 1) := by
  intro cs
  induction cs with
  | nil =>
    intro w hw
    simp [max_eq_left hw]
  | cons c cs ih =>
    intro w hw
    rcases hc : CONDITION_WEIGHTS c vitalKey with _ | m
    · simp only [List.foldl_cons, List.filterMap_cons, hc]
      exact ih w hw
    · simp only [List.foldl_cons, List.filterMap_cons, hc, List.foldr_cons]
      rw [ih (max w m) (le_trans hw (le_max_left w m)), max_assoc]

lemma getConditionWeight_eq_spec (conditions : List String) (vitalKey : VitalKey) :
    getConditionWeight conditions vitalKey = specMaxMultiplier conditions vitalKey := by
  unfold getConditionWeight specMaxMultiplier
  rw [getConditionWeight_go vitalKey conditions 1 (le_refl 1)]
  exact max_eq_right (one_le_foldr_max _)

lemma one_le_getConditionWeight (conditions : List String) (vitalKey : VitalKey) :
    1 ≤ getConditionWeight conditions vitalKey := by
  rw [getConditionWeight_eq_spec]
  exact one_le_foldr_max _

lemma vitalFactor_congr_weight (latestVitals : VitalReading) (vitalsHistory : List VitalReading)
    (conds1 conds2 : List String)
    (h : ∀ k, getConditionWeight conds1 k = getConditionWeight conds2 k) :
    vitalFactor latestVitals vitalsHistory conds1 = vitalFactor latestVitals vitalsHistory conds2 := by
  funext k
  simp only [vitalFactor, h k]

lemma riskScore_congr_conditions (latestVitals : VitalReading) (vitalsHistory : List VitalReading)
    (conds1 conds2 : List String)
    (h : ∀ k, getConditionWeight conds1 k = getConditionWeight conds2 k) :
    calculateRiskScore latestVitals vitalsHistory (.array conds1) =
      calculateRiskScore latestVitals vitalsHistory (.array conds2) := by
  have hvf := vitalFactor_congr_weight latestVitals vitalsHistory conds1 conds2 h
  have hstep : riskStep latestVitals vitalsHistory conds1 = riskStep latestVitals vitalsHistory conds2 := by
    funext acc k
    simp only [riskStep, hvf]
  simp only [calculateRiskScore, coerceConditions, hstep]

lemma vitalFactor_empty_history (latestVitals : VitalReading) (conditions : List String)
    (vitalKey : VitalKey) (v : ℚ) (hv : latestVitals.get vitalKey = some v) :
    vitalFactor latestVitals [] conditions vitalKey =
      some ⟨vitalKey,
        min 25 (jsRound ((((RISK_SCORING vitalKey).score v).points : ℚ) *
          getConditionWeight conditions vitalKey)),
        "stable", ((RISK_SCORING vitalKey).score v).zone,
        (RISK_SCORING vitalKey).explain v⟩ := by
  have hdp : dataPoints [] vitalKey = [] := rfl
  have hslope : linearRegressionSlope [] = 0 := rfl
  have htrend : classifyTrend 0 vitalKey = "stable" := by
    unfold classifyTrend
    rw [if_pos]
    rw [abs_zero]
    norm_num
  simp only [vitalFactor, hv, hdp, hslope, htrend]
  norm_num

lemma get_set_self (r : VitalReading) (k : VitalKey) (o : Option ℚ) :
    (r.set k o).get k = o := by
  cases k <;> rfl

lemma get_set_ne (r : VitalReading) (k : VitalKey) (o : Option ℚ) (j : VitalKey)
    (h : j ≠ k) : (r.set k o).get j = r.get j := by
  cases k <;> cases j <;> first | rfl | exact absurd rfl h

lemma vitalFactor_set_ne (latestVitals : VitalReading) (vitalsHistory : List VitalReading)
    (conditions : List String) (k : VitalKey) (o : Option ℚ) (j : VitalKey) (h : j ≠ k) :
    vitalFactor (latestVitals.set k o) vitalsHistory conditions j =
      vitalFactor latestVitals vitalsHistory conditions j := by
  simp only [vitalFactor, get_set_ne latestVitals k o j h]

lemma vitalFactor_some (latestVitals : VitalReading) (vitalsHistory : List VitalReading)
    (conditions : List String) (vitalKey : VitalKey) (v : ℚ)
    (hv : latestVitals.get vitalKey = some v) :
    vitalFactor latestVitals vitalsHistory conditions vitalKey =
      some ⟨vitalKey,
        min 25 (jsRound ((((RISK_SCORING vitalKey).score v).points : ℚ) *
          getConditionWeight conditions vitalKey)) +
        (if classifyTrend (linearRegressionSlope (dataPoints vitalsHistory vitalKey)) vitalKey =
              "worsening" ∧ 3 ≤ (dataPoints vitalsHistory vitalKey).length then
          jsRound (min (|linearRegressionSlope (dataPoints vitalsHistory vitalKey)| / 2) 1 * 5)
        else 0),
        classifyTrend (linearRegressionSlope (dataPoints vitalsHistory vitalKey)) vitalKey,
        ((RISK_SCORING vitalKey).score v).zone,
        (RISK_SCORING vitalKey).explain v⟩ := by
  simp only [vitalFactor, hv]

lemma points_zero_of_zone_normal (k : VitalKey) (v : ℚ)
    (h : ((RISK_SCORING k).score v).zone = "normal") :
    ((RISK_SCORING k).score v).points = 0 := by
  cases k <;>
    simp only [RISK_SCORING, heartRateScore, systolicScore, diastolicScore, glucoseScore,
      oxygenScore, temperatureScore, apply_ite ZoneScore.zone, apply_ite ZoneScore.points] at h ⊢ <;>
    split_ifs at h ⊢ <;>
    first | rfl | exact absurd h (by decide)

lemma jsRound_nonneg (q : ℚ) (h : 0 ≤ q) : 0 ≤ jsRound q := by
  unfold jsRound
  exact Int.le_floor.mpr (by push_cast; linarith)

lemma jsRound_zero : jsRound 0 = 0 := by
  unfold jsRound
  norm_num [Int.floor_eq_iff]

lemma compoundPenalty_mono {c c2 : ℕ} (h : c ≤ c2) :
    compoundPenalty c ≤ compoundPenalty c2 := by
  unfold compoundPenalty
  split_ifs <;> omega

lemma sum_shift_mul (l : List (ℚ × ℚ)) (a b : ℚ) :
    (l.map fun p => (p.1 - a) * (p.2 - b)).sum =
      (l.map fun p => p.1 * p.2).sum - a * (l.map Prod.snd).sum -
        b * (l.map Prod.fst).sum + (l.length : ℚ) * (a * b) := by
  induction l with
  | nil => simp
  | cons p ps ih =>
    simp only [List.map_cons, List.sum_cons, List.length_cons, ih]
    push_cast
    ring

lemma sum_shift_sq (l : List (ℚ × ℚ)) (a : ℚ) :
    (l.map fun p => (p.1 - a) ^ 2).sum =
      (l.map fun p => p.1 * p.1).sum - 2 * a * (l.map Prod.fst).sum +
        (l.length : ℚ) * a ^ 2 := by
  induction l with
  | nil => simp
  | cons p ps ih =>
    simp only [List.map_cons, List.sum_cons, List.length_cons, ih]
    push_cast
    ring

lemma linearRegressionSlope_eq_ols (pts : List (ℚ × ℚ)) :
    linearRegressionSlope pts = specOlsSlope pts := by
  by_cases hlen : pts.length < 2
  · rcases pts with _ | ⟨p, _ | ⟨q, rest⟩⟩
    · simp [linearRegressionSlope, specOlsSlope]
    · simp [linearRegressionSlope, specOlsSlope]
    · simp only [List.length_cons] at hlen
      omega
  · push_neg at hlen
    have hn : ((pts.length : ℚ)) ≠ 0 := by
      have : (2 : ℚ) ≤ (pts.length : ℚ) := by exact_mod_cast hlen
      linarith
    simp only [linearRegressionSlope, specOlsSlope]
    rw [if_neg (not_lt.mpr hlen)]
    rw [sum_shift_mul, sum_shift_sq]
    set n : ℚ := (pts.length : ℚ) with hnn
    set S1 := (pts.map Prod.fst).sum with hS1
    set S2 := (pts.map Prod.snd).sum with hS2
    set SXY := (pts.map fun p => p.1 * p.2).sum with hSXY
    set SXX := (pts.map fun p => p.1 * p.1).sum with hSXX
    have key1 : SXY - S1 / n * S2 - S2 / n * S1 + n * (S1 / n * (S2 / n)) =
        (n * SXY - S1 * S2) / n := by
      field_simp
      ring
    have key2 : SXX - 2 * (S1 / n) * S1 + n * (S1 / n) ^ 2 =
        (n * SXX - S1 * S1) / n := by
      field_simp
      ring
    rw [key1, key2]
    by_cases hD : n * SXX - S1 * S1 = 0
    · rw [if_pos hD, hD]
      simp
    · rw [if_neg hD]
      rw [div_div_div_cancel_right₀]
      exact hn

lemma classifyTrend_worsening_iff (slope : ℚ) (k : VitalKey) :
    classifyTrend slope k = "worsening" ↔
      (if k ∈ HIGHER_IS_WORSE then 0.5 ≤ slope else slope ≤ -0.5) := by
  unfold classifyTrend
  by_cases h1 : |slope| < 0.5
  · rw [if_pos h1]
    rcases abs_lt.mp h1 with ⟨hlo, hhi⟩
    constructor
    · intro h
      exact absurd h (by decide)
    · intro h
      split_ifs at h <;> [linarith; linarith]
  · rw [if_neg h1]
    push_neg at h1
    by_cases h2 : k ∈ HIGHER_IS_WORSE
    · rw [if_pos h2, if_pos h2]
      by_cases h3 : slope > 0
      · rw [if_pos h3]
        have : |slope| = slope := abs_of_pos h3
        constructor
        · intro _
          linarith [this ▸ h1]
        · intro _
          rfl
      · rw [if_neg h3]
        push_neg at h3
        have : |slope| = -slope := abs_of_nonpos h3
        constructor
        · intro h
          exact absurd h (by decide)
        · intro h
          linarith
    · rw [if_neg h2, if_neg h2]
      by_cases h3 : slope > 0
      · rw [if_pos h3]
        constructor
        · intro h
          exact absurd h (by decide)
        · intro h
          linarith
      · rw [if_neg h3]
        push_neg at h3
        have : |slope| = -slope := abs_of_nonpos h3
        constructor
        · intro _
          linarith [this ▸ h1]
        · intro _
          rfl

lemma evaluateAlerts_155 : evaluateAlerts reading155 = [alert155] := by
  have h1 : checkVital reading155 .heart_rate = some alert155 := by
    simp only [checkVital, VitalReading.get, reading155]
    norm_num [firstMatch, ruleBreached, THRESHOLDS]
    simp [alert155, generateBasicMessage, UNIT_MAP, numStr, Rat.den_ofNat, AlertRecord.mk.injEq]
    decide
  have h2 : checkVital reading155 .blood_pressure_systolic = none := rfl
  have h3 : checkVital reading155 .blood_pressure_diastolic = none := rfl
  have h4 : checkVital reading155 .glucose = none := rfl
  have h5 : checkVital reading155 .oxygen_saturation = none := rfl
  have h6 : checkVital reading155 .temperature = none := rfl
  simp only [evaluateAlerts, ALERT_VITALS, List.filterMap_cons, List.filterMap_nil,
    h1, h2, h3, h4, h5, h6]

/-! ## Claim theorems -/

/-- C1: for every reading and every monitored vital, the evaluator
returns at most one alert for that vital; every returned alert carries
the severity, title and boundary of the first rule of that vital's
ordered list that its value breaches; and a reading with heart rate 155
yields exactly one `critical` alert and no `warning` alert. -/
theorem alerts_first_match_wins :
    (∀ reading k,
      ((evaluateAlerts reading).filter (fun a => decide (a.vital_type = k))).length ≤ 1) ∧
    (∀ reading a, a ∈ evaluateAlerts reading →
      ∃ v rule, reading.get a.vital_type = some v ∧
        firstMatch v (THRESHOLDS a.vital_type) = some rule ∧
        a.type = rule.type ∧ a.title = rule.title ∧
        a.vital_value = v ∧ a.threshold_value = rule.value) ∧
    (evaluateAlerts reading155).map (fun a => (a.vital_type, a.type)) =
      [(VitalKey.heart_rate, "critical")] := by
  refine ⟨?_, ?_, ?_⟩
  · intro reading k
    exact filter_filterMap_checkVital_len reading k ALERT_VITALS (by decide)
  · intro reading a ha
    rcases List.mem_filterMap.mp ha with ⟨y, _, hcy⟩
    rcases checkVital_spec reading y a hcy with ⟨hvt, v, rule, hget, hfm, hrec⟩
    subst hrec
    exact ⟨v, rule, by simpa using hget, by simpa using hfm, rfl, rfl, rfl, rfl⟩
  · rw [evaluateAlerts_155]
    simp [alert155]

/-- Witness for C1 at the concrete reading with heart rate 155 and its
concrete alert record. -/
theorem alerts_first_match_wins_witness :
    ∃ v rule, reading155.get alert155.vital_type = some v ∧
      firstMatch v (THRESHOLDS alert155.vital_type) = some rule ∧
      alert155.type = rule.type ∧ alert155.title = rule.title ∧
      alert155.vital_value = v ∧ alert155.threshold_value = rule.value :=
  alerts_first_match_wins.2.1 reading155 alert155
    (by rw [evaluateAlerts_155]; exact List.mem_singleton.mpr rfl)

/-- C2 counterexample: a value exactly on a stated zone boundary does
not always fall in the less severe band — systolic blood pressure
exactly 180 falls in the more severe `crisis` band (25 points), while
179 is in the `high` band (18 points). -/
theorem zone_boundary_less_severe_cex :
    systolicScore 179 = ⟨18, "high"⟩ ∧
    systolicScore 180 = ⟨25, "crisis"⟩ ∧
    ¬ (systolicScore 180).points ≤ (systolicScore 179).points := by
  refine ⟨by norm_num [systolicScore], by norm_num [systolicScore], ?_⟩
  norm_num [systolicScore]

/-- C2 (amended): a reading value exactly equal to an alert rule's
boundary never matches that rule (comparisons are strict `>` / `<`);
heart rate exactly 150 matches only the `warning` rule, not the
`above 150` critical rule; heart rate exactly 100 scores 0 points in
zone `normal`; but a value exactly on an upward zone boundary falls in
the more severe band — systolic 180 is `crisis`. -/
theorem boundary_values_exclusive :
    (∀ k rule, rule ∈ THRESHOLDS k → ¬ ruleBreached rule.value rule) ∧
    firstMatch 150 (THRESHOLDS .heart_rate) =
      some ⟨.above, 120, "warning", "Elevated Heart Rate"⟩ ∧
    heartRateScore 100 = ⟨0, "normal"⟩ ∧
    systolicScore 180 = ⟨25, "crisis"⟩ := by
  refine ⟨?_, ?_, by norm_num [heartRateScore], by norm_num [systolicScore]⟩
  · intro k rule _
    rcases rule with ⟨d, value, t, title⟩
    simp only [ruleBreached]
    rintro (⟨_, hv⟩ | ⟨_, hv⟩) <;> exact lt_irrefl _ hv
  · norm_num [firstMatch, ruleBreached, THRESHOLDS]

/-- Witness for C2 at the heart-rate critical rule: its own boundary
value 150 does not breach it. -/
theorem boundary_values_exclusive_witness :
    ¬ ruleBreached (150 : ℚ) ⟨.above, 150, "critical", "Critically High Heart Rate"⟩ :=
  boundary_values_exclusive.1 .heart_rate
    ⟨.above, 150, "critical", "Critically High Heart Rate"⟩ (by decide)

/-- C9 counterexample: alerts from `checkVitals` (`alertChecker.js`)
render the heart-rate unit as lowercase `bpm`, so the claimed message
with unit `BPM` does not hold for every triggered alert. -/
theorem message_unit_bpm_cex :
    (checkVitalsAlerts reading155).map (fun a => a.message) =
      ["Critically High Heart Rate: 155bpm exceeds the threshold of 150bpm."] ∧
    ("Critically High Heart Rate: 155bpm exceeds the threshold of 150bpm." ≠
      "Critically High Heart Rate: 155BPM exceeds the threshold of 150BPM.") := by
  constructor
  · have h1 : checkVitalChecker reading155 .heart_rate =
        some ⟨.heart_rate, 155, 150, "critical", "Critically High Heart Rate",
          "Critically High Heart Rate: 155bpm exceeds the threshold of 150bpm."⟩ := by
      simp only [checkVitalChecker, VitalReading.get, reading155]
      norm_num [firstMatch, ruleBreached, THRESHOLDS]
      simp [generateMessage, alertCheckerUnitMap, numStr, Rat.den_ofNat, AlertRecord.mk.injEq]
      decide
    have h2 : checkVitalChecker reading155 .blood_pressure_systolic = none := rfl
    have h3 : checkVitalChecker reading155 .blood_pressure_diastolic = none := rfl
    have h4 : checkVitalChecker reading155 .glucose = none := rfl
    have h5 : checkVitalChecker reading155 .oxygen_saturation = none := rfl
    have h6 : checkVitalChecker reading155 .temperature = none := rfl
    simp [checkVitalsAlerts, ALERT_VITALS, List.filterMap_cons, List.filterMap_nil,
      h1, h2, h3, h4, h5, h6]
  · decide

/-- C9 (amended): every alert produced by the alert engine
(`checkVitalsAndAlert`) carries a message equal to the fixed template
`<title>: <value><unit> <exceeds|is below> the threshold of
<boundary><unit>.` with verb `exceeds` for `above` rules and
`is below` for `below` rules, where the unit is the engine's per-vital
unit of measure: BPM for heart rate, mmHg for both blood pressures,
mg/dL for glucose, % for oxygen saturation, °F for temperature.  (The
legacy `alertChecker.js` evaluator uses the same template but lowercase
`bpm` for heart rate.) -/
theorem message_template (reading : VitalReading) (a : AlertRecord)
    (ha : a ∈ evaluateAlerts reading) :
    (∃ rule, firstMatch a.vital_value (THRESHOLDS a.vital_type) = some rule ∧
      a.threshold_value = rule.value ∧
      a.message = a.title ++ ": " ++ numStr a.vital_value ++ UNIT_MAP a.vital_type ++ " " ++
        (if rule.direction = .above then "exceeds" else "is below") ++
        " the threshold of " ++ numStr rule.value ++ UNIT_MAP a.vital_type ++ ".") ∧
    UNIT_MAP .heart_rate = "BPM" ∧ UNIT_MAP .blood_pressure_systolic = "mmHg" ∧
    UNIT_MAP .blood_pressure_diastolic = "mmHg" ∧ UNIT_MAP .glucose = "mg/dL" ∧
    UNIT_MAP .oxygen_saturation = "%" ∧ UNIT_MAP .temperature = "°F" := by
  rcases List.mem_filterMap.mp ha with ⟨y, _, hcy⟩
  rcases checkVital_spec reading y a hcy with ⟨hvt, v, rule, hget, hfm, hrec⟩
  subst hrec
  refine ⟨⟨rule, by simpa using hfm, rfl, ?_⟩, rfl, rfl, rfl, rfl, rfl, rfl⟩
  simp [generateBasicMessage]

/-- Witness for C9 at the concrete heart-rate-155 alert. -/
theorem message_template_witness :
    (∃ rule, firstMatch alert155.vital_value (THRESHOLDS alert155.vital_type) = some rule ∧
      alert155.threshold_value = rule.value ∧
      alert155.message = alert155.title ++ ": " ++ numStr alert155.vital_value ++
        UNIT_MAP alert155.vital_type ++ " " ++
        (if rule.direction = .above then "exceeds" else "is below") ++
        " the threshold of " ++ numStr rule.value ++ UNIT_MAP alert155.vital_type ++ ".") ∧
    UNIT_MAP .heart_rate = "BPM" ∧ UNIT_MAP .blood_pressure_systolic = "mmHg" ∧
    UNIT_MAP .blood_pressure_diastolic = "mmHg" ∧ UNIT_MAP .glucose = "mg/dL" ∧
    UNIT_MAP .oxygen_saturation = "%" ∧ UNIT_MAP .temperature = "°F" :=
  message_template reading155 alert155
    (by rw [evaluateAlerts_155]; exact List.mem_singleton.mpr rfl)

/-- C7: for every latest reading, history and conditions argument —
however extreme — the `overallScore` returned by `calculateRiskScore`
is an integer in the closed interval [0, 100]. -/
theorem overallScore_in_range (latestVitals : VitalReading) (vitalsHistory : List VitalReading)
    (pc : ConditionsArg) :
    0 ≤ (calculateRiskScore latestVitals vitalsHistory pc).overallScore ∧
    (calculateRiskScore latestVitals vitalsHistory pc).overallScore ≤ 100 := by
  rw [calculateRiskScore_eq]
  exact ⟨le_max_left 0 _, max_le (by norm_num) (min_le_left _ _)⟩

/-- C8: for a completely empty reading the threshold evaluator returns
an empty alert list and `calculateRiskScore` returns score 0 with an
empty factors list, for every history and conditions argument; neither
computation fails. -/
theorem empty_reading_graceful (vitalsHistory : List VitalReading) (pc : ConditionsArg) :
    evaluateAlerts emptyReading = [] ∧
    calculateRiskScore emptyReading vitalsHistory pc = ⟨0, "low", []⟩ := by
  constructor
  · rfl
  · have hvf : ∀ k, vitalFactor emptyReading vitalsHistory (coerceConditions pc) k = none := by
      intro k
      cases k <;> rfl
    rw [calculateRiskScore_eq]
    simp [totalContribution, outOfRange, SCORED_VITALS, hvf, contribOf, abnOf,
      compoundPenalty, sortFactors]

/-- C10: `calculateRiskScore` treats any non-array conditions argument
exactly like the empty condition list — identical result, every
condition weight 1, and no error. -/
theorem nonArray_conditions_default (latestVitals : VitalReading)
    (vitalsHistory : List VitalReading) (v : String) :
    calculateRiskScore latestVitals vitalsHistory (.nonArray v) =
      calculateRiskScore latestVitals vitalsHistory (.array []) ∧
    (∀ k, getConditionWeight (coerceConditions (.nonArray v)) k = 1) :=
  ⟨rfl, fun _ => rfl⟩

/-- C3: scenario C — latest systolic 185 and diastolic 120, empty
history, no conditions — puts both blood-pressure vitals in zone
`crisis` with 25 points each, adds the +5 compounding bonus for exactly
2 abnormal vitals, and returns overall score 55 with category `high`;
a third abnormal vital would instead trigger the +10 bonus (82 overall
here), and the penalty equals 10 exactly when 3 or more vitals are
out of range. -/
theorem riskScore_scenarioC :
    calculateRiskScore readingC3 [] (.array []) =
      ⟨55, "high",
       [⟨.blood_pressure_systolic, 25, "stable", "crisis",
          "Systolic BP 185 mmHg is in hypertensive crisis (>= 180)"⟩,
        ⟨.blood_pressure_diastolic, 25, "stable", "crisis",
          "Diastolic BP 120 mmHg is in hypertensive crisis (>= 120)"⟩]⟩ ∧
    (calculateRiskScore readingC3plus [] (.array [])).overallScore = 82 ∧
    compoundPenalty 2 = 5 ∧
    (∀ n, compoundPenalty n = 10 ↔ 3 ≤ n) := by
  have hbps : vitalFactor readingC3 [] [] .blood_pressure_systolic =
      some ⟨.blood_pressure_systolic, 25, "stable", "crisis",
        "Systolic BP 185 mmHg is in hypertensive crisis (>= 180)"⟩ := by
    simp [vitalFactor, VitalReading.get, readingC3, RISK_SCORING, systolicScore, systolicExplain,
      getConditionWeight, dataPoints, linearRegressionSlope, classifyTrend, jsRound, numStr,
      Rat.den_ofNat, Factor.mk.injEq]
    norm_num [Int.floor_eq_iff]
    decide
  have hbpd : vitalFactor readingC3 [] [] .blood_pressure_diastolic =
      some ⟨.blood_pressure_diastolic, 25, "stable", "crisis",
        "Diastolic BP 120 mmHg is in hypertensive crisis (>= 120)"⟩ := by
    simp [vitalFactor, VitalReading.get, readingC3, RISK_SCORING, diastolicScore, diastolicExplain,
      getConditionWeight, dataPoints, linearRegressionSlope, classifyTrend, jsRound, numStr,
      Rat.den_ofNat, Factor.mk.injEq]
    norm_num [Int.floor_eq_iff]
    decide
  have hbps2 : vitalFactor readingC3plus [] [] .blood_pressure_systolic =
      some ⟨.blood_pressure_systolic, 25, "stable", "crisis",
        "Systolic BP 185 mmHg is in hypertensive crisis (>= 180)"⟩ := by
    simp [vitalFactor, VitalReading.get, readingC3plus, RISK_SCORING, systolicScore,
      systolicExplain, getConditionWeight, dataPoints, linearRegressionSlope, classifyTrend,
      jsRound, numStr, Rat.den_ofNat, Factor.mk.injEq]
    norm_num [Int.floor_eq_iff]
    decide
  have hbpd2 : vitalFactor readingC3plus [] [] .blood_pressure_diastolic =
      some ⟨.blood_pressure_diastolic, 25, "stable", "crisis",
        "Diastolic BP 120 mmHg is in hypertensive crisis (>= 120)"⟩ := by
    simp [vitalFactor, VitalReading.get, readingC3plus, RISK_SCORING, diastolicScore,
      diastolicExplain, getConditionWeight, dataPoints, linearRegressionSlope, classifyTrend,
      jsRound, numStr, Rat.den_ofNat, Factor.mk.injEq]
    norm_num [Int.floor_eq_iff]
    decide
  have hglu2 : vitalFactor readingC3plus [] [] .glucose =
      some ⟨.glucose, 22, "stable", "critical",
        "Blood glucose 250 mg/dL is critically high (> 200)"⟩ := by
    simp [vitalFactor, VitalReading.get, readingC3plus, RISK_SCORING, glucoseScore,
      glucoseExplain, getConditionWeight, dataPoints, linearRegressionSlope, classifyTrend,
      jsRound, numStr, Rat.den_ofNat, Factor.mk.injEq]
    norm_num [Int.floor_eq_iff]
    decide
  have hn1 : vitalFactor readingC3 [] [] .heart_rate = none :=
    vitalFactor_eq_none _ _ _ _ rfl
  have hn2 : vitalFactor readingC3 [] [] .glucose = none :=
    vitalFactor_eq_none _ _ _ _ rfl
  have hn3 : vitalFactor readingC3 [] [] .oxygen_saturation = none :=
    vitalFactor_eq_none _ _ _ _ rfl
  have hn4 : vitalFactor readingC3 [] [] .temperature = none :=
    vitalFactor_eq_none _ _ _ _ rfl
  have hm1 : vitalFactor readingC3plus [] [] .heart_rate = none :=
    vitalFactor_eq_none _ _ _ _ rfl
  have hm2 : vitalFactor readingC3plus [] [] .oxygen_saturation = none :=
    vitalFactor_eq_none _ _ _ _ rfl
  have hm3 : vitalFactor readingC3plus [] [] .temperature = none :=
    vitalFactor_eq_none _ _ _ _ rfl
  refine ⟨?_, ?_, by decide, fun n => ?_⟩
  · rw [calculateRiskScore_eq]
    simp only [totalContribution, outOfRange, SCORED_VITALS, coerceConditions,
      List.map_cons, List.map_nil, List.filterMap_cons, List.filterMap_nil,
      hbps, hbpd, hn1, hn2, hn3, hn4]
    simp [contribOf, abnOf, compoundPenalty, sortFactors, insertFactor, RiskResult.mk.injEq]
  · rw [calculateRiskScore_eq]
    simp only [totalContribution, outOfRange, SCORED_VITALS, coerceConditions,
      List.map_cons, List.map_nil, List.filterMap_cons, List.filterMap_nil,
      hbps2, hbpd2, hglu2, hm1, hm2, hm3]
    simp [contribOf, abnOf, compoundPenalty, sortFactors, insertFactor]
  · unfold compoundPenalty
    split_ifs <;> omega

/-- C4: the applied condition weight is the maximum multiplier over all
matching conditions (never the sum); the weighted contribution of a
vital equals `min 25 (round(points * weight))`; and duplicating a
condition in the list changes nothing — the whole risk result is
identical. -/
theorem condition_weight_max :
    (∀ conds k, getConditionWeight conds k = specMaxMultiplier conds k) ∧
    (∀ (latestVitals : VitalReading) (vitalsHistory : List VitalReading) (c : String)
        (conds : List String),
      calculateRiskScore latestVitals vitalsHistory (.array (c :: c :: conds)) =
        calculateRiskScore latestVitals vitalsHistory (.array (c :: conds))) ∧
    getConditionWeight ["Heart Disease", "COPD"] .oxygen_saturation = 1.5 ∧
    (∀ (latestVitals : VitalReading) (conds : List String) (k : VitalKey) (v : ℚ),
      latestVitals.get k = some v →
      vitalFactor latestVitals [] conds k =
        some ⟨k,
          min 25 (jsRound ((((RISK_SCORING k).score v).points : ℚ) * getConditionWeight conds k)),
          "stable", ((RISK_SCORING k).score v).zone, (RISK_SCORING k).explain v⟩) := by
  refine ⟨getConditionWeight_eq_spec, ?_, ?_, vitalFactor_empty_history⟩
  · intro latestVitals vitalsHistory c conds
    apply riskScore_congr_conditions
    intro j
    rw [getConditionWeight_eq_spec, getConditionWeight_eq_spec]
    unfold specMaxMultiplier
    rcases hc : CONDITION_WEIGHTS c j with _ | m
    · simp [List.filterMap_cons, hc]
    · simp only [List.filterMap_cons, hc, List.foldr_cons]
      rw [← max_assoc, max_self]
  · have h1 : CONDITION_WEIGHTS "Heart Disease" VitalKey.oxygen_saturation = some 1.2 := rfl
    have h2 : CONDITION_WEIGHTS "COPD" VitalKey.oxygen_saturation = some 1.5 := rfl
    simp only [getConditionWeight, List.foldl_cons, List.foldl_nil, h1, h2]
    rw [max_eq_right (by norm_num : (1 : ℚ) ≤ 1.2),
      max_eq_right (by norm_num : (1.2 : ℚ) ≤ 1.5)]

/-- C5: the trend slope is the ordinary least-squares slope of value
versus sequence index over the history window (0 with fewer than 2
points); the trend is `worsening` exactly when |slope| ≥ 0.5 in the
clinically bad direction; and the 3-point ascending glucose history
110 → 160 → 210 with latest 210 yields trend `worsening` with a
non-zero penalty (+5 on top of the 22 zone points), while the same
latest with empty history scores 22 with trend `stable`. -/
theorem trend_slope_and_penalty :
    (∀ pts : List (ℚ × ℚ), pts.length < 2 → linearRegressionSlope pts = 0) ∧
    (∀ pts : List (ℚ × ℚ), linearRegressionSlope pts = specOlsSlope pts) ∧
    (∀ (slope : ℚ) (k : VitalKey), classifyTrend slope k = "worsening" ↔
      (if k ∈ HIGHER_IS_WORSE then 0.5 ≤ slope else slope ≤ -0.5)) ∧
    calculateRiskScore (glucoseReading 210) glucoseHistory (.array []) =
      ⟨27, "low", [⟨.glucose, 27, "worsening", "critical",
        "Blood glucose 210 mg/dL is critically high (> 200)"⟩]⟩ ∧
    calculateRiskScore (glucoseReading 210) [] (.array []) =
      ⟨22, "low", [⟨.glucose, 22, "stable", "critical",
        "Blood glucose 210 mg/dL is critically high (> 200)"⟩]⟩ := by
  have hdp : dataPoints glucoseHistory .glucose = [(0, 110), (1, 160), (2, 210)] := by
    simp [dataPoints, glucoseHistory, glucoseReading, VitalReading.get, List.enum, List.enumFrom]
  have hslope : linearRegressionSlope [((0 : ℚ), (110 : ℚ)), (1, 160), (2, 210)] = 50 := by
    simp [linearRegressionSlope]
    norm_num
  have htrend : classifyTrend 50 .glucose = "worsening" := by
    unfold classifyTrend
    rw [abs_of_nonneg (by norm_num : (0 : ℚ) ≤ 50)]
    rw [if_neg (by norm_num), if_pos (by decide : VitalKey.glucose ∈ HIGHER_IS_WORSE),
      if_pos (by norm_num : (50 : ℚ) > 0)]
  have hfac : vitalFactor (glucoseReading 210) glucoseHistory [] .glucose =
      some ⟨.glucose, 27, "worsening", "critical",
        "Blood glucose 210 mg/dL is critically high (> 200)"⟩ := by
    rw [vitalFactor_some (glucoseReading 210) glucoseHistory [] .glucose 210 rfl]
    rw [hdp, hslope, htrend]
    simp only [RISK_SCORING]
    norm_num [glucoseScore, glucoseExplain, getConditionWeight, jsRound, Int.floor_eq_iff,
      abs_of_nonneg (by norm_num : (0 : ℚ) ≤ 50), numStr, Rat.den_ofNat, Factor.mk.injEq]
    decide
  have hfac0 : vitalFactor (glucoseReading 210) [] [] .glucose =
      some ⟨.glucose, 22, "stable", "critical",
        "Blood glucose 210 mg/dL is critically high (> 200)"⟩ := by
    rw [vitalFactor_empty_history (glucoseReading 210) [] .glucose 210 rfl]
    simp only [RISK_SCORING]
    norm_num [glucoseScore, glucoseExplain, getConditionWeight, jsRound, Int.floor_eq_iff,
      numStr, Rat.den_ofNat, Factor.mk.injEq]
    decide
  have hnone : ∀ j : VitalKey, j ≠ .glucose →
      (∀ history : List VitalReading, vitalFactor (glucoseReading 210) history [] j = none) := by
    intro j hj history
    apply vitalFactor_eq_none
    cases j <;> first | rfl | exact absurd rfl hj
  refine ⟨?_, linearRegressionSlope_eq_ols, classifyTrend_worsening_iff, ?_, ?_⟩
  · intro pts h
    simp [linearRegressionSlope, h]
  · rw [calculateRiskScore_eq]
    simp only [totalContribution, outOfRange, SCORED_VITALS, coerceConditions,
      List.map_cons, List.map_nil, List.filterMap_cons, List.filterMap_nil,
      hfac, hnone .heart_rate (by decide), hnone .blood_pressure_systolic (by decide),
      hnone .blood_pressure_diastolic (by decide), hnone .oxygen_saturation (by decide),
      hnone .temperature (by decide)]
    simp [contribOf, abnOf, compoundPenalty, sortFactors, insertFactor, RiskResult.mk.injEq]
  · rw [calculateRiskScore_eq]
    simp only [totalContribution, outOfRange, SCORED_VITALS, coerceConditions,
      List.map_cons, List.map_nil, List.filterMap_cons, List.filterMap_nil,
      hfac0, hnone .heart_rate (by decide), hnone .blood_pressure_systolic (by decide),
      hnone .blood_pressure_diastolic (by decide), hnone .oxygen_saturation (by decide),
      hnone .temperature (by decide)]
    simp [contribOf, abnOf, compoundPenalty, sortFactors, insertFactor, RiskResult.mk.injEq]

/-- Witness for C5: the empty point list has fewer than 2 points and
slope 0. -/
theorem trend_slope_and_penalty_witness : linearRegressionSlope [] = 0 :=
  trend_slope_and_penalty.1 [] (by decide)

/-- C6: `calculateRiskScore` is monotonic in zone severity — replacing
a single vital's value that sits in its `normal` zone by any value in a
non-normal (worse) zone, holding the rest of the reading, the history
and the conditions fixed, never decreases the overall score. -/
theorem riskScore_monotone_zone (latestVitals : VitalReading) (vitalsHistory : List VitalReading)
    (pc : ConditionsArg) (k : VitalKey) (v v2 : ℚ)
    (hget : latestVitals.get k = some v)
    (hnorm : ((RISK_SCORING k).score v).zone = "normal")
    (hworse : ((RISK_SCORING k).score v2).zone ≠ "normal") :
    (calculateRiskScore latestVitals vitalsHistory pc).overallScore ≤
      (calculateRiskScore (latestVitals.set k (some v2)) vitalsHistory pc).overallScore := by
  rw [calculateRiskScore_eq, calculateRiskScore_eq]
  refine max_le_max (le_refl _) (min_le_min (le_refl _) ?_)
  set conds := coerceConditions pc with hconds
  have hcontrib : ∀ j ∈ SCORED_VITALS,
      contribOf (vitalFactor latestVitals vitalsHistory conds j) ≤
      contribOf (vitalFactor (latestVitals.set k (some v2)) vitalsHistory conds j) := by
    intro j _
    by_cases hjk : j = k
    · subst hjk
      rw [vitalFactor_some latestVitals vitalsHistory conds j v hget,
        vitalFactor_some (latestVitals.set j (some v2)) vitalsHistory conds j v2
          (get_set_self latestVitals j (some v2))]
      simp only [contribOf]
      have hp0 : (((RISK_SCORING j).score v).points : ℚ) = 0 := by
        rw [points_zero_of_zone_normal j v hnorm]
        exact Nat.cast_zero
      rw [hp0, zero_mul, jsRound_zero]
      have h25 : min (25 : ℤ) 0 = 0 := min_eq_right (by norm_num)
      rw [h25]
      have hwp2 : (0 : ℤ) ≤ min 25 (jsRound ((((RISK_SCORING j).score v2).points : ℚ) *
          getConditionWeight conds j)) := by
        refine le_min (by norm_num) (jsRound_nonneg _ ?_)
        exact mul_nonneg (Nat.cast_nonneg _)
          (le_trans zero_le_one (one_le_getConditionWeight conds j))
      linarith [hwp2]
    · rw [vitalFactor_set_ne latestVitals vitalsHistory conds k (some v2) j hjk]
  have habn : ∀ j ∈ SCORED_VITALS,
      abnOf (vitalFactor latestVitals vitalsHistory conds j) ≤
      abnOf (vitalFactor (latestVitals.set k (some v2)) vitalsHistory conds j) := by
    intro j _
    by_cases hjk : j = k
    · subst hjk
      rw [vitalFactor_some latestVitals vitalsHistory conds j v hget]
      simp only [abnOf, hnorm]
      simp
    · rw [vitalFactor_set_ne latestVitals vitalsHistory conds k (some v2) j hjk]
  have hS : totalContribution latestVitals vitalsHistory conds ≤
      totalContribution (latestVitals.set k (some v2)) vitalsHistory conds :=
    List.sum_le_sum hcontrib
  have hC : outOfRange latestVitals vitalsHistory conds ≤
      outOfRange (latestVitals.set k (some v2)) vitalsHistory conds :=
    List.sum_le_sum habn
  exact add_le_add hS (compoundPenalty_mono hC)

/-- Witness for C6: moving heart rate 70 (`normal`) to 155 (`critical`)
with empty history and no conditions does not decrease the score. -/
theorem riskScore_monotone_zone_witness :
    (calculateRiskScore reading70 [] (.array [])).overallScore ≤
      (calculateRiskScore (reading70.set .heart_rate (some 155)) [] (.array [])).overallScore :=
  riskScore_monotone_zone reading70 [] (.array []) .heart_rate 70 155 rfl
    (by norm_num [RISK_SCORING, heartRateScore])
    (by norm_num [RISK_SCORING, heartRateScore]; decide)

/-- Witness for C4: scenario B's vital — glucose 245 with Type 2
Diabetes — evaluated through the weighted-contribution formula. -/
theorem condition_weight_max_witness :
    vitalFactor (glucoseReading 245) [] ["Type 2 Diabetes"] .glucose =
      some ⟨.glucose,
        min 25 (jsRound ((((RISK_SCORING .glucose).score 245).points : ℚ) *
          getConditionWeight ["Type 2 Diabetes"] .glucose)),
        "stable", ((RISK_SCORING .glucose).score 245).zone,
        (RISK_SCORING .glucose).explain 245⟩ :=
  condition_weight_max.2.2.2 (glucoseReading 245) ["Type 2 Diabetes"] .glucose 245 rfl

end HealthGuard
